import Mathlib

/-!
Shallow embedding of the nested-container control-plane API of the agent
(`src/slave/http.cpp`): call dispatch and content negotiation (`Slave::Http::api`,
`Slave::Http::_api`), the authorization gate, and the nested-container lifecycle
handlers (`_launchNestedContainer`, `waitNestedContainer`, `killNestedContainer`,
`attachContainerInput`, `attachContainerOutput`, `launchNestedContainerSession`).

Asynchronous futures are modelled by values: a `Future<T>` that may fail is an
`Except String T` (a failed future carries its failure message, and a failed
`Future<Response>` is surfaced by the HTTP layer as a 500-class internal error,
modelled as `HttpResponse.failure`).  Side effects on the containerizer and the
authorizer are recorded as an `Action` trace so that "the containerizer's launch
primitive is never invoked" and "destroy is attempted exactly once" become
statements about the trace.
-/

namespace MesosAgent

/-- The four body encodings of the v1 API (`ContentType` in common/http). -/
inductive ContentType
  | JSON
  | PROTOBUF
  | STREAMING_JSON
  | STREAMING_PROTOBUF
deriving DecidableEq, Repr

/-- Modelled from the spec: `requestStreaming` (defined in common/http, outside
src/): the streaming variants mean the body is a concatenation of framed
messages rather than one message. -/
def requestStreaming : ContentType → Bool
  | .STREAMING_JSON => true
  | .STREAMING_PROTOBUF => true
  | _ => false

/-- ContainerID: a value with an optional recursive parent reference (the
protobuf message ContainerID holds a required string value and an optional
ContainerID parent).  Encoded as the value together with the list of ancestor
values, nearest parent first; this is isomorphic to the recursive protobuf
message and makes equality decidable by derivation. -/
structure ContainerID where
  value : String
  ancestors : List String
deriving DecidableEq, Repr

/-- The protobuf `parent` field when set. -/
def ContainerID.parent : ContainerID → Option ContainerID
  | ⟨_, []⟩ => none
  | ⟨_, p :: ps⟩ => some ⟨p, ps⟩

/-- The protobuf accessor `containerId.parent()`: the default (empty) instance
when the field is unset. -/
def ContainerID.parentOrDefault (c : ContainerID) : ContainerID :=
  c.parent.getD ⟨"", []⟩

/-- The check `containerId.parent().has_parent()` from `_launchNestedContainer`:
nesting depth greater than one below the executor's own container. -/
def ContainerID.parentHasParent (c : ContainerID) : Bool :=
  c.parentOrDefault.parent.isSome

/-- CommandInfo: only the fields the handlers read (`user` for the effective
user resolution; `value` stands for the rest of the message). -/
structure CommandInfo where
  value : String
  user : Option String
deriving DecidableEq, Repr

/-- ContainerInfo, opaque to the handlers: it is only passed through to the
containerizer launch. -/
structure ContainerInfo where
  detail : String
deriving DecidableEq, Repr

/-- ContainerClass (`mesos::slave::ContainerClass`). -/
inductive ContainerClass
  | DEFAULT
  | DEBUG
deriving DecidableEq, Repr

/-- The termination record returned by containerizer `wait`; `status` is the
optional exit status (`termination->has_status()`). -/
structure ContainerTermination where
  status : Option Int
deriving DecidableEq, Repr

/-- Executor runtime state as read by the handlers: its container id, its
`ExecutorInfo` (opaque) and its user. -/
structure ExecutorState where
  containerId : ContainerID
  info : String
  user : Option String
deriving DecidableEq, Repr

/-- Framework runtime state: its `FrameworkInfo` (opaque) and its executors. -/
structure FrameworkState where
  info : String
  executors : List ExecutorState
deriving DecidableEq, Repr

/-- The slave state the nested-container handlers read. -/
structure AgentState where
  frameworks : List FrameworkState
deriving DecidableEq, Repr

/-- The object an ObjectApprover is applied to (`ObjectApprover::Object`):
optional executor info, framework info and command info. -/
structure ApproverObject where
  executor_info : Option String
  framework_info : Option String
  command_info : Option CommandInfo
deriving DecidableEq, Repr

/-- The three-valued outcome of `approver->approved(object)` (a `Try<bool>`):
allow, deny, or an evaluation error distinct from deny. -/
inductive ApproverResult
  | allow
  | deny
  | error (msg : String)
deriving DecidableEq, Repr

/-- An ObjectApprover as a capability predicate. -/
def Approver : Type := ApproverObject → ApproverResult

/-- Modelled from the spec: `AcceptingObjectApprover` (authorizer module,
outside src/) always allows. -/
def acceptingObjectApprover : Approver := fun _ => .allow

/-- The authorization actions taken from `authorization::` in the nested
container handlers. -/
inductive AuthAction
  | LAUNCH_NESTED_CONTAINER
  | LAUNCH_NESTED_CONTAINER_SESSION
  | WAIT_NESTED_CONTAINER
  | KILL_NESTED_CONTAINER
deriving DecidableEq, Repr

/-- An authorizer: `getObjectApprover(subject, action)` resolves an approver
asynchronously and may fail (a failed future).  The subject is the optional
principal. -/
def Authorizer : Type := Option String → AuthAction → Except String Approver

/-- Approver resolution as every handler performs it: if an authorizer is
configured delegate to it, otherwise substitute the always-allow approver. -/
def getApprover (auth : Option Authorizer) (principal : Option String)
    (action : AuthAction) : Except String Approver :=
  match auth with
  | some a => a principal action
  | none => .ok acceptingObjectApprover

/-- Payloads carried by a 200 response that the claims inspect. -/
inductive ResponsePayload
  | waitNestedContainer (exitStatus : Option Int)
  | pipeStream
deriving DecidableEq, Repr

/-- The responses produced by the handlers.  `failure` stands for a failed
`Future<Response>`, which the HTTP layer surfaces as a 500-class internal
server error. -/
inductive HttpResponse
  | ok (payload : Option ResponsePayload)
  | badRequest (msg : String)
  | forbidden
  | notFound (msg : String)
  | methodNotAllowed
  | notAcceptable (msg : String)
  | unsupportedMediaType (msg : String)
  | failure (msg : String)
  | notImplemented (msg : String)
  | serviceUnavailable (msg : String)
deriving DecidableEq, Repr

/-- The wire status code of each response (a failed future becomes a 500
InternalServerError at the HTTP boundary). -/
def HttpResponse.statusCode : HttpResponse → Nat
  | .ok _ => 200
  | .badRequest _ => 400
  | .forbidden => 403
  | .notFound _ => 404
  | .methodNotAllowed => 405
  | .notAcceptable _ => 406
  | .unsupportedMediaType _ => 415
  | .failure _ => 500
  | .notImplemented _ => 501
  | .serviceUnavailable _ => 503

/-- The check `response.status == OK().status`. -/
def HttpResponse.isOk200 : HttpResponse → Bool
  | .ok _ => true
  | _ => false

/-- Whether the response is a failed future. -/
def HttpResponse.isFailure : HttpResponse → Bool
  | .failure _ => true
  | _ => false

/-- Observable side effects of one call: each consultation of an
ObjectApprover and each containerizer primitive invoked. -/
inductive Action
  | approve (obj : ApproverObject)
  | ctzLaunch (id : ContainerID) (cmd : CommandInfo) (ci : Option ContainerInfo)
      (user : Option String) (cls : ContainerClass)
  | ctzDestroy (id : ContainerID)
  | ctzWait (id : ContainerID)
  | ctzAttach (id : ContainerID)
deriving DecidableEq, Repr

def Action.isLaunch : Action → Bool
  | .ctzLaunch _ _ _ _ _ => true
  | _ => false

def Action.isDestroy : Action → Bool
  | .ctzDestroy _ => true
  | _ => false

def Action.isApprove : Action → Bool
  | .approve _ => true
  | _ => false

/-- Number of containerizer destroy invocations in a trace. -/
def destroyCount (trace : List Action) : Nat :=
  (trace.filter Action.isDestroy).length

/-- Number of containerizer launch invocations in a trace. -/
def launchCount (trace : List Action) : Nat :=
  (trace.filter Action.isLaunch).length

/-- A connection to the container's I/O switchboard, as obtained from
containerizer `attach`; `sendResponse` is the outcome of `connection.send`
(a failed future or the switchboard's response). -/
structure Connection where
  sendResponse : Except String HttpResponse

/-- The containerizer capability interface as consumed by the handlers; each
primitive returns the outcome of the corresponding future. -/
structure Containerizer where
  launch : ContainerID → CommandInfo → Option ContainerInfo → Option String →
      ContainerClass → Except String Bool
  destroy : ContainerID → Except String Bool
  wait : ContainerID → Except String (Option ContainerTermination)
  attach : ContainerID → Except String Connection

/-- First executor in a framework whose container id satisfies the match
predicate (the inner `foreachvalue` loop with its `break`). -/
def findExecutorIn (fw : FrameworkState) (pred : ContainerID → Bool) :
    Option ExecutorState :=
  fw.executors.find? (fun e => pred e.containerId)

/-- The executor lookup loop shared by the nested-container handlers.  The
C++ `break` leaves only the inner loop, so a match found in a later framework
overwrites one found earlier; the fold reproduces that: the result is the
first matching executor of the last framework containing a match. -/
def locateExecutor (frameworks : List FrameworkState)
    (pred : ContainerID → Bool) : Option (FrameworkState × ExecutorState) :=
  frameworks.foldl
    (fun acc fw =>
      match findExecutorIn fw pred with
      | some e => some (fw, e)
      | none => acc)
    none

/-- The match predicate of the launch lookup: the executor's container id
equals `containerId.parent()`. -/
def launchMatch (containerId : ContainerID) : ContainerID → Bool :=
  fun cid => cid == containerId.parentOrDefault

/-- The match predicate of the wait/kill lookup: the executor's container id
equals `containerId.parent()` or equals `containerId` itself. -/
def waitKillMatch (containerId : ContainerID) : ContainerID → Bool :=
  fun cid => cid == containerId.parentOrDefault || cid == containerId

/-- The `ObjectApprover::Object` built for a launch: executor info, framework
info and the command. -/
def launchObject (ex : ExecutorState) (fw : FrameworkState)
    (cmd : CommandInfo) : ApproverObject :=
  ⟨some ex.info, some fw.info, some cmd⟩

/-- The `ObjectApprover::Object` built for wait/kill: executor info and
framework info only. -/
def waitKillObject (ex : ExecutorState) (fw : FrameworkState) : ApproverObject :=
  ⟨some ex.info, some fw.info, none⟩

/-- Effective user resolution (non-Windows branch): the executor's user unless
the command overrides it. -/
def effectiveUser (ex : ExecutorState) (cmd : CommandInfo) : Option String :=
  match cmd.user with
  | some u => some u
  | none => ex.user

/-- Embedding of `Slave::Http::_launchNestedContainer`: depth check, executor
lookup, authorization, effective-user resolution, containerizer launch with
best-effort destroy on launch failure (the destroy outcome is logged only and
never replaces the launch failure in the response). -/
def _launchNestedContainer (slave : AgentState) (ctz : Containerizer)
    (containerId : ContainerID) (commandInfo : CommandInfo)
    (containerInfo : Option ContainerInfo) (containerClass : ContainerClass)
    (acceptType : ContentType) (approver : Approver) :
    HttpResponse × List Action :=
  if containerId.parentHasParent then
    (.notImplemented
      "Only a single level of container nesting is supported currently", [])
  else
    match locateExecutor slave.frameworks (launchMatch containerId) with
    | none =>
      (.badRequest "Unable to locate executor for parent container", [])
    | some (fw, ex) =>
      let object := launchObject ex fw commandInfo
      match approver object with
      | .error e => (.failure e, [.approve object])
      | .deny => (.forbidden, [.approve object])
      | .allow =>
        let user := effectiveUser ex commandInfo
        let launchAct :=
          Action.ctzLaunch containerId commandInfo containerInfo user
            containerClass
        match ctz.launch containerId commandInfo containerInfo user
            containerClass with
        | .error e =>
          (.failure e, [.approve object, launchAct, .ctzDestroy containerId])
        | .ok false =>
          (.badRequest "The provided ContainerInfo is not supported",
            [.approve object, launchAct])
        | .ok true => (.ok none, [.approve object, launchAct])

/-- Embedding of `Slave::Http::launchNestedContainer`: resolve the approver
(the always-allow approver when no authorizer is configured; a failed
resolution propagates as a failed future) and delegate with class DEFAULT. -/
def launchNestedContainer (slave : AgentState) (ctz : Containerizer)
    (auth : Option Authorizer) (principal : Option String)
    (containerId : ContainerID) (commandInfo : CommandInfo)
    (containerInfo : Option ContainerInfo) (acceptType : ContentType) :
    HttpResponse × List Action :=
  match getApprover auth principal .LAUNCH_NESTED_CONTAINER with
  | .error e => (.failure e, [])
  | .ok approver =>
    _launchNestedContainer slave ctz containerId commandInfo containerInfo
      .DEFAULT acceptType approver

/-- Embedding of `Slave::Http::waitNestedContainer`: approver resolution,
parent-or-exact executor lookup (404 when neither matches), authorization,
containerizer wait; a `none` termination is 404, otherwise a 200 response
carrying the optional exit status. -/
def waitNestedContainer (slave : AgentState) (ctz : Containerizer)
    (auth : Option Authorizer) (principal : Option String)
    (containerId : ContainerID) (acceptType : ContentType) :
    HttpResponse × List Action :=
  match getApprover auth principal .WAIT_NESTED_CONTAINER with
  | .error e => (.failure e, [])
  | .ok approver =>
    match locateExecutor slave.frameworks (waitKillMatch containerId) with
    | none => (.notFound "Container cannot be found", [])
    | some (fw, ex) =>
      let object := waitKillObject ex fw
      match approver object with
      | .error e => (.failure e, [.approve object])
      | .deny => (.forbidden, [.approve object])
      | .allow =>
        match ctz.wait containerId with
        | .error e => (.failure e, [.approve object, .ctzWait containerId])
        | .ok none =>
          (.notFound "Container cannot be found",
            [.approve object, .ctzWait containerId])
        | .ok (some termination) =>
          (.ok (some (.waitNestedContainer termination.status)),
            [.approve object, .ctzWait containerId])

/-- Embedding of `Slave::Http::killNestedContainer`: same resolution and
authorization as wait; containerizer destroy reports whether the container
was found, and not-found (or already killed) is 404. -/
def killNestedContainer (slave : AgentState) (ctz : Containerizer)
    (auth : Option Authorizer) (principal : Option String)
    (containerId : ContainerID) (acceptType : ContentType) :
    HttpResponse × List Action :=
  match getApprover auth principal .KILL_NESTED_CONTAINER with
  | .error e => (.failure e, [])
  | .ok approver =>
    match locateExecutor slave.frameworks (waitKillMatch containerId) with
    | none => (.notFound "Container cannot be found", [])
    | some (fw, ex) =>
      let object := waitKillObject ex fw
      match approver object with
      | .error e => (.failure e, [.approve object])
      | .deny => (.forbidden, [.approve object])
      | .allow =>
        match ctz.destroy containerId with
        | .error e => (.failure e, [.approve object, .ctzDestroy containerId])
        | .ok false =>
          (.notFound "Container cannot be found (or is already killed)",
            [.approve object, .ctzDestroy containerId])
        | .ok true => (.ok none, [.approve object, .ctzDestroy containerId])

/-- Embedding of `Slave::Http::attachContainerInput`: no authorizer and no
principal is ever consulted (the parameters are accepted and ignored, as in
the source); the handler attaches to the container and relays the request
pipe into the switchboard connection, returning the connection's response. -/
def attachContainerInput (ctz : Containerizer) (auth : Option Authorizer)
    (principal : Option String) (containerId : ContainerID) :
    HttpResponse × List Action :=
  match ctz.attach containerId with
  | .error e => (.failure e, [.ctzAttach containerId])
  | .ok conn =>
    match conn.sendResponse with
    | .error e => (.failure e, [.ctzAttach containerId])
    | .ok response => (response, [.ctzAttach containerId])

/-- Embedding of `Slave::Http::attachContainerOutput`: no authorizer and no
principal is ever consulted; the handler attaches to the container, sends one
request to the switchboard and, if that response is 200, re-frames its record
stream into a fresh pipe response; a non-200 switchboard response is returned
as is. -/
def attachContainerOutput (ctz : Containerizer) (auth : Option Authorizer)
    (principal : Option String) (containerId : ContainerID) :
    HttpResponse × List Action :=
  match ctz.attach containerId with
  | .error e => (.failure e, [.ctzAttach containerId])
  | .ok conn =>
    match conn.sendResponse with
    | .error e => (.failure e, [.ctzAttach containerId])
    | .ok response =>
      if response.isOk200 then
        (.ok (some .pipeStream), [.ctzAttach containerId])
      else (response, [.ctzAttach containerId])

/-- Outcome of the output-relay streaming phase of a session, once launch and
attach have succeeded.  `connectOutcome` is the terminal state of the
`connect(reader, writer)` pump: `none` while it is still pumping with no
terminal event, `some (.ok ())` on clean EOF of the output stream, and
`some (.error e)` when a read or write fails (in particular, a write fails
with "Write failed to the pipe" once the client's end is closed).
`readerClosed` states whether `writer.readerClosed()` fired, which happens
when the client's connection to the agent is closed. -/
structure SessionStreamEnv where
  connectOutcome : Option (Except String Unit)
  readerClosed : Bool

/-- Embedding of `Slave::Http::launchNestedContainerSession`: launch with
class DEBUG through `_launchNestedContainer` (which already destroys on
launch failure), return any non-200 launch response as is, then attach to the
container output; a failed attach destroys the container once (`onFailed`).
On a streaming attach response the handler registers destroy on the terminal
outcome of the `connect` pump (both the `onReady` EOF path and the `onFailed`
error path destroy) and, independently, destroy on `writer.readerClosed()`
(client disconnect); there is no once-guard between those two registrations.
Returns `none` for the path where the attach response is ready but not a pipe
response: there `CHECK_EQ(Response::PIPE, response.type)` aborts the process. -/
def launchNestedContainerSession (slave : AgentState) (ctz : Containerizer)
    (auth : Option Authorizer) (principal : Option String)
    (containerId : ContainerID) (commandInfo : CommandInfo)
    (containerInfo : Option ContainerInfo)
    (contentType acceptType : ContentType) (env : SessionStreamEnv) :
    Option (HttpResponse × List Action) :=
  match getApprover auth principal .LAUNCH_NESTED_CONTAINER_SESSION with
  | .error e => some (.failure e, [])
  | .ok approver =>
    let launched :=
      _launchNestedContainer slave ctz containerId commandInfo containerInfo
        .DEBUG acceptType approver
    if !launched.1.isOk200 then
      some launched
    else
      let attached := attachContainerOutput ctz auth principal containerId
      if attached.1.isFailure then
        some (attached.1,
          launched.2 ++ attached.2 ++ [.ctzDestroy containerId])
      else if attached.1 == .ok (some .pipeStream) then
        let connectDestroys : List Action :=
          match env.connectOutcome with
          | none => []
          | some _ => [.ctzDestroy containerId]
        let readerDestroys : List Action :=
          if env.readerClosed then [.ctzDestroy containerId] else []
        some (.ok (some .pipeStream),
          launched.2 ++ attached.2 ++ connectDestroys ++ readerDestroys)
      else none

/-- The call-type enum of `mesos::agent::Call` as matched by the dispatcher. -/
inductive CallType
  | UNKNOWN
  | GET_HEALTH
  | GET_FLAGS
  | GET_VERSION
  | GET_METRICS
  | GET_LOGGING_LEVEL
  | SET_LOGGING_LEVEL
  | LIST_FILES
  | READ_FILE
  | GET_STATE
  | GET_CONTAINERS
  | GET_FRAMEWORKS
  | GET_EXECUTORS
  | GET_TASKS
  | LAUNCH_NESTED_CONTAINER
  | WAIT_NESTED_CONTAINER
  | KILL_NESTED_CONTAINER
  | LAUNCH_NESTED_CONTAINER_SESSION
  | ATTACH_CONTAINER_INPUT
  | ATTACH_CONTAINER_OUTPUT
deriving DecidableEq, Repr

/-- An `agent::Call` as far as dispatch consults it: the dispatcher and its
415 gate read only `call.type()`; the per-call payloads are passed to the
handlers, embedded above with explicit parameters. -/
structure AgentCall where
  type : CallType
deriving DecidableEq, Repr

/-- Result of `Reader<Call>::read()` on the first frame of a streaming body
(a stout `Result`): end of stream, a deserialize/devolve/validate error, or
one decoded call. -/
inductive ReadResult (α : Type)
  | none
  | error (msg : String)
  | some (val : α)
deriving DecidableEq, Repr

/-- The request `Content-Type` header as the dispatcher classifies it: absent,
present but matching none of the four media types, or one of the four. -/
inductive RawContentType
  | absent
  | unknownMedia (s : String)
  | media (ct : ContentType)
deriving DecidableEq, Repr

/-- An inbound request to the `api` endpoint.  Body decoding is embedded by
its outcome: `nonStreamingBody` is the deserializer's result on the whole
body (deserialize, devolve, validate — any failure is an error), and
`streamingFirstFrame` is the result of reading the first frame of a
streaming body. -/
structure ApiRequest where
  method : String
  contentTypeHeader : RawContentType
  accepts : ContentType → Bool
  nonStreamingBody : Except String AgentCall
  streamingFirstFrame : ReadResult AgentCall

/-- The outcome of dispatch: either a terminal response produced by the
dispatcher itself, or the call routed to the handler of its type with the
negotiated content types. -/
inductive ApiOutcome
  | response (r : HttpResponse)
  | routed (t : CallType) (contentType acceptType : ContentType)
deriving DecidableEq, Repr

/-- The candidates of response content negotiation in the order the source
tests them. -/
def acceptCandidates : List ContentType :=
  [.STREAMING_PROTOBUF, .STREAMING_JSON, .JSON, .PROTOBUF]

/-- Content negotiation of `Slave::Http::api`: test the Accept header against
STREAMING_PROTOBUF, STREAMING_JSON, JSON, PROTOBUF in that order and select
the first acceptable candidate. -/
def chooseAcceptType (accepts : ContentType → Bool) : Option ContentType :=
  if accepts .STREAMING_PROTOBUF then some .STREAMING_PROTOBUF
  else if accepts .STREAMING_JSON then some .STREAMING_JSON
  else if accepts .JSON then some .JSON
  else if accepts .PROTOBUF then some .PROTOBUF
  else none

/-- Embedding of `Slave::Http::_api`: the streaming gate (only
ATTACH_CONTAINER_INPUT may arrive under a streaming Content-Type, and it may
arrive only under one), then dispatch on the call type; UNKNOWN is 501 and
every other type routes to its handler. -/
def _api (call : AgentCall) (contentType acceptType : ContentType) :
    ApiOutcome :=
  if requestStreaming contentType && !(call.type == CallType.ATTACH_CONTAINER_INPUT)
  then
    .response (.unsupportedMediaType
      "Streaming Content-Type is not supported for this call")
  else if !requestStreaming contentType
      && (call.type == CallType.ATTACH_CONTAINER_INPUT) then
    .response (.unsupportedMediaType
      "Expecting a streaming Content-Type for this call")
  else
    match call.type with
    | .UNKNOWN => .response (.notImplemented "")
    | t => .routed t contentType acceptType

/-- Embedding of `Slave::Http::api`: recovery gate, POST-only, Content-Type
classification (absent is 400, unknown is 415), content negotiation (no
acceptable candidate is 406), then body decoding.  Under a streaming
Content-Type only the first frame is read: end-of-stream is 400 but a decode
or validation error on that frame is returned as a failed future (surfaced as
a 500-class error); under a non-streaming Content-Type a deserializer error
is 400.  A decoded call goes to `_api`. -/
def api (recovering : Bool) (req : ApiRequest) : ApiOutcome :=
  if recovering then
    .response (.serviceUnavailable "Agent has not finished recovery")
  else if !(req.method == "POST") then .response .methodNotAllowed
  else
    match req.contentTypeHeader with
    | .absent => .response (.badRequest "Expecting Content-Type to be present")
    | .unknownMedia _ =>
      .response (.unsupportedMediaType "Expecting Content-Type of ...")
    | .media contentType =>
      match chooseAcceptType req.accepts with
      | none => .response (.notAcceptable "Expecting Accept to allow ...")
      | some acceptType =>
        if requestStreaming contentType then
          match req.streamingFirstFrame with
          | .none =>
            .response (.badRequest "Received EOF while reading request body")
          | .error e => .response (.failure e)
          | .some call => _api call contentType acceptType
        else
          match req.nonStreamingBody with
          | .error e => .response (.badRequest e)
          | .ok call => _api call contentType acceptType

/-!
Concrete fixtures used by witnesses and counterexamples: one framework with
one executor whose container id is the parent of the nested container id.
-/

def cidParent : ContainerID := ⟨"parent", []⟩

def cidChild : ContainerID := ⟨"child", ["parent"]⟩

def cidDeep : ContainerID := ⟨"deep", ["p", "g"]⟩

def cidOther : ContainerID := ⟨"other", []⟩

def sampleCmd : CommandInfo := ⟨"sleep 1000", none⟩

def sampleExecutor : ExecutorState := ⟨cidParent, "executor-info", some "alice"⟩

def sampleFramework : FrameworkState := ⟨"framework-info", [sampleExecutor]⟩

def sampleState : AgentState := ⟨[sampleFramework]⟩

def denyAllApprover : Approver := fun _ => .deny

def errorApprover : Approver := fun _ => .error "authorizer backend unavailable"

def denyAuthorizer : Authorizer := fun _ _ => .ok denyAllApprover

def errorAuthorizer : Authorizer := fun _ _ => .ok errorApprover

/-- A switchboard connection whose send succeeds with a 200 pipe response. -/
def pipeConnection : Connection := ⟨.ok (.ok (some .pipeStream))⟩

def ctzAllOk : Containerizer :=
  ⟨fun _ _ _ _ _ => .ok true, fun _ => .ok true,
    fun _ => .ok (some ⟨some 0⟩), fun _ => .ok pipeConnection⟩

/-- Containerizer whose launch fails and whose cleanup destroy also fails:
exercises that the destroy failure is logged only and never surfaced. -/
def ctzLaunchFails : Containerizer :=
  ⟨fun _ _ _ _ _ => .error "launch failed", fun _ => .error "destroy also failed",
    fun _ => .ok none, fun _ => .ok pipeConnection⟩

def ctzAttachFails : Containerizer :=
  ⟨fun _ _ _ _ _ => .ok true, fun _ => .ok true,
    fun _ => .ok none, fun _ => .error "attach failed"⟩

def ctzWaitNone : Containerizer :=
  ⟨fun _ _ _ _ _ => .ok true, fun _ => .ok true,
    fun _ => .ok none, fun _ => .ok pipeConnection⟩

/-- A streaming request whose first frame fails to decode. -/
def badFrameStreamingReq : ApiRequest :=
  ⟨"POST", .media .STREAMING_JSON, fun _ => true, .error "unused",
    .error "Failed to validate agent::Call: malformed record"⟩

/-- A non-streaming request whose body fails the deserializer. -/
def badBodyReq : ApiRequest :=
  ⟨"POST", .media .JSON, fun _ => true,
    .error "Failed to validate agent::Call: bad body", .none⟩

/-- A request whose Accept header admits none of the four content types. -/
def nothingAcceptedReq : ApiRequest :=
  ⟨"POST", .media .JSON, fun _ => false, .ok ⟨.GET_HEALTH⟩, .none⟩

/-- Destroy invocations of a session outcome (none when the session hit the
aborting CHECK). -/
def sessionDestroyCount (r : Option (HttpResponse × List Action)) : Option Nat :=
  r.map (fun x => destroyCount x.2)

/-!
Helper lemmas shared by the claim theorems.
-/

/-- Unfolding lemma for the lookup fold: the fold yields nothing exactly when
the accumulator was empty and no framework holds a matching executor. -/
theorem locate_foldl_eq_none (pred : ContainerID → Bool) :
    ∀ (fws : List FrameworkState) (acc : Option (FrameworkState × ExecutorState)),
      fws.foldl (fun acc fw =>
        match findExecutorIn fw pred with
        | some e => some (fw, e)
        | none => acc) acc = none ↔
      (acc = none ∧ ∀ fw ∈ fws, findExecutorIn fw pred = none) := by
  intro fws
  induction fws with
  | nil => intro acc; simp
  | cons fw rest ih =>
    intro acc
    rw [List.foldl_cons, ih]
    cases h : findExecutorIn fw pred with
    | none => simp [h]
    | some e => simp [h]

/-- The executor lookup fails exactly when no executor of any framework
satisfies the match predicate. -/
theorem locateExecutor_eq_none_iff (fws : List FrameworkState)
    (pred : ContainerID → Bool) :
    locateExecutor fws pred = none ↔
      ∀ fw ∈ fws, ∀ e ∈ fw.executors, pred e.containerId = false := by
  unfold locateExecutor
  rw [locate_foldl_eq_none]
  simp [findExecutorIn, List.find?_eq_none]

/-- C5: for every launch of a nested container whose ContainerID has a parent
that itself has a parent (nesting depth greater than one), the handler
answers 501 Not Implemented and invokes no containerizer primitive (and no
approver) at all: the depth check precedes everything else in
`_launchNestedContainer`. -/
theorem c5_deep_nesting_rejected (slave : AgentState) (ctz : Containerizer)
    (containerId : ContainerID) (commandInfo : CommandInfo)
    (containerInfo : Option ContainerInfo) (containerClass : ContainerClass)
    (acceptType : ContentType) (approver : Approver)
    (hdeep : containerId.parentHasParent = true) :
    (_launchNestedContainer slave ctz containerId commandInfo containerInfo
        containerClass acceptType approver).1.statusCode = 501 ∧
    (_launchNestedContainer slave ctz containerId commandInfo containerInfo
        containerClass acceptType approver).2 = [] := by
  simp [_launchNestedContainer, hdeep, HttpResponse.statusCode]

/-- Witness for C5 at a container id nested two levels deep. -/
theorem c5_witness :
    ContainerID.parentHasParent cidDeep = true ∧
    (_launchNestedContainer sampleState ctzAllOk cidDeep sampleCmd none
        .DEFAULT .JSON acceptingObjectApprover).1.statusCode = 501 ∧
    (_launchNestedContainer sampleState ctzAllOk cidDeep sampleCmd none
        .DEFAULT .JSON acceptingObjectApprover).2 = [] :=
  ⟨by decide,
    c5_deep_nesting_rejected sampleState ctzAllOk cidDeep sampleCmd none
      .DEFAULT .JSON acceptingObjectApprover (by decide)⟩

/-- C2: when the containerizer launch fails, a destroy for the same
ContainerID is attempted exactly once afterward, and the response surfaced is
the original launch failure: the trace is approve, launch, destroy, and the
response is the launch failure message whatever `ctz.destroy` returns (the
destroy outcome is logged only). -/
theorem c2_launch_failure_destroys_once (slave : AgentState)
    (ctz : Containerizer) (containerId : ContainerID)
    (commandInfo : CommandInfo) (containerInfo : Option ContainerInfo)
    (containerClass : ContainerClass) (acceptType : ContentType)
    (approver : Approver) (fw : FrameworkState) (ex : ExecutorState)
    (e : String)
    (hdeep : containerId.parentHasParent = false)
    (hloc : locateExecutor slave.frameworks (launchMatch containerId) =
      some (fw, ex))
    (hallow : approver (launchObject ex fw commandInfo) = .allow)
    (hfail : ctz.launch containerId commandInfo containerInfo
      (effectiveUser ex commandInfo) containerClass = .error e) :
    (_launchNestedContainer slave ctz containerId commandInfo containerInfo
        containerClass acceptType approver).1 = .failure e ∧
    destroyCount (_launchNestedContainer slave ctz containerId commandInfo
        containerInfo containerClass acceptType approver).2 = 1 ∧
    (_launchNestedContainer slave ctz containerId commandInfo containerInfo
        containerClass acceptType approver).2 =
      [.approve (launchObject ex fw commandInfo),
        .ctzLaunch containerId commandInfo containerInfo
          (effectiveUser ex commandInfo) containerClass,
        .ctzDestroy containerId] := by
  simp [_launchNestedContainer, hdeep, hloc, hallow, hfail, destroyCount,
    Action.isDestroy, Action.isLaunch, List.filter]

/-- Witness for C2: the launch fails and the cleanup destroy itself also
fails; the caller still sees the original launch failure. -/
theorem c2_witness :
    ContainerID.parentHasParent cidChild = false ∧
    locateExecutor sampleState.frameworks (launchMatch cidChild) =
      some (sampleFramework, sampleExecutor) ∧
    acceptingObjectApprover (launchObject sampleExecutor sampleFramework
      sampleCmd) = .allow ∧
    ctzLaunchFails.launch cidChild sampleCmd none
      (effectiveUser sampleExecutor sampleCmd) .DEFAULT =
      .error "launch failed" ∧
    ctzLaunchFails.destroy cidChild = .error "destroy also failed" ∧
    ((_launchNestedContainer sampleState ctzLaunchFails cidChild sampleCmd
        none .DEFAULT .JSON acceptingObjectApprover).1 =
      .failure "launch failed" ∧
    destroyCount (_launchNestedContainer sampleState ctzLaunchFails cidChild
        sampleCmd none .DEFAULT .JSON acceptingObjectApprover).2 = 1 ∧
    (_launchNestedContainer sampleState ctzLaunchFails cidChild sampleCmd
        none .DEFAULT .JSON acceptingObjectApprover).2 =
      [.approve (launchObject sampleExecutor sampleFramework sampleCmd),
        .ctzLaunch cidChild sampleCmd none
          (effectiveUser sampleExecutor sampleCmd) .DEFAULT,
        .ctzDestroy cidChild]) :=
  ⟨by decide, by decide, rfl, rfl, rfl,
    c2_launch_failure_destroys_once sampleState ctzLaunchFails cidChild
      sampleCmd none .DEFAULT .JSON acceptingObjectApprover sampleFramework
      sampleExecutor "launch failed" (by decide) (by decide) rfl rfl⟩

/-- C3: when the resolved ObjectApprover denies the launch object, both
LAUNCH_NESTED_CONTAINER and LAUNCH_NESTED_CONTAINER_SESSION answer 403
Forbidden and the containerizer launch primitive is never invoked (the trace
holds only the approver consultation). -/
theorem c3_deny_forbidden_never_launches (slave : AgentState)
    (ctz : Containerizer) (auth : Option Authorizer)
    (principal : Option String) (containerId : ContainerID)
    (commandInfo : CommandInfo) (containerInfo : Option ContainerInfo)
    (acceptType : ContentType) (apL apS : Approver) (fw : FrameworkState)
    (ex : ExecutorState)
    (hapL : getApprover auth principal .LAUNCH_NESTED_CONTAINER = .ok apL)
    (hapS : getApprover auth principal .LAUNCH_NESTED_CONTAINER_SESSION =
      .ok apS)
    (hdeep : containerId.parentHasParent = false)
    (hloc : locateExecutor slave.frameworks (launchMatch containerId) =
      some (fw, ex))
    (hdenyL : apL (launchObject ex fw commandInfo) = .deny)
    (hdenyS : apS (launchObject ex fw commandInfo) = .deny) :
    (launchNestedContainer slave ctz auth principal containerId commandInfo
        containerInfo acceptType).1 = .forbidden ∧
    launchCount (launchNestedContainer slave ctz auth principal containerId
        commandInfo containerInfo acceptType).2 = 0 ∧
    ∀ (contentType : ContentType) (env : SessionStreamEnv),
      launchNestedContainerSession slave ctz auth principal containerId
          commandInfo containerInfo contentType acceptType env =
        some (.forbidden, [.approve (launchObject ex fw commandInfo)]) := by
  refine ⟨?_, ?_, ?_⟩
  · simp [launchNestedContainer, hapL, _launchNestedContainer, hdeep, hloc,
      hdenyL]
  · simp [launchNestedContainer, hapL, _launchNestedContainer, hdeep, hloc,
      hdenyL, launchCount, Action.isLaunch, List.filter]
  · intro contentType env
    simp [launchNestedContainerSession, hapS, _launchNestedContainer, hdeep,
      hloc, hdenyS, HttpResponse.isOk200]

/-- Witness for C3 with a configured authorizer that denies everything. -/
theorem c3_witness :
    getApprover (some denyAuthorizer) none .LAUNCH_NESTED_CONTAINER =
      .ok denyAllApprover ∧
    denyAllApprover (launchObject sampleExecutor sampleFramework sampleCmd) =
      .deny ∧
    ((launchNestedContainer sampleState ctzAllOk (some denyAuthorizer) none
        cidChild sampleCmd none .JSON).1 = .forbidden ∧
    launchCount (launchNestedContainer sampleState ctzAllOk
        (some denyAuthorizer) none cidChild sampleCmd none .JSON).2 = 0 ∧
    ∀ (contentType : ContentType) (env : SessionStreamEnv),
      launchNestedContainerSession sampleState ctzAllOk (some denyAuthorizer)
          none cidChild sampleCmd none contentType .JSON env =
        some (.forbidden,
          [.approve (launchObject sampleExecutor sampleFramework sampleCmd)])) :=
  ⟨rfl, rfl,
    c3_deny_forbidden_never_launches sampleState ctzAllOk
      (some denyAuthorizer) none cidChild sampleCmd none .JSON denyAllApprover
      denyAllApprover sampleFramework sampleExecutor rfl rfl (by decide)
      (by decide) rfl rfl⟩

/-- C4: an approver evaluation error is surfaced as a failed future (a
500-class internal failure), distinct from and never coerced to the 403
produced by a deny, across the four authorization-gated nested-container
handlers: launch, wait, kill and launch-with-session. -/
theorem c4_approver_error_is_internal_failure (slave : AgentState)
    (ctz : Containerizer) (auth : Option Authorizer)
    (principal : Option String) (containerId : ContainerID)
    (commandInfo : CommandInfo) (containerInfo : Option ContainerInfo)
    (acceptType : ContentType) (apL apW apK apS : Approver)
    (fwL : FrameworkState) (exL : ExecutorState) (fwW : FrameworkState)
    (exW : ExecutorState) (m : String)
    (hdeep : containerId.parentHasParent = false)
    (hlocL : locateExecutor slave.frameworks (launchMatch containerId) =
      some (fwL, exL))
    (hlocW : locateExecutor slave.frameworks (waitKillMatch containerId) =
      some (fwW, exW))
    (hapW : getApprover auth principal .WAIT_NESTED_CONTAINER = .ok apW)
    (hapK : getApprover auth principal .KILL_NESTED_CONTAINER = .ok apK)
    (hapS : getApprover auth principal .LAUNCH_NESTED_CONTAINER_SESSION =
      .ok apS)
    (herrL : apL (launchObject exL fwL commandInfo) = .error m)
    (herrW : apW (waitKillObject exW fwW) = .error m)
    (herrK : apK (waitKillObject exW fwW) = .error m)
    (herrS : apS (launchObject exL fwL commandInfo) = .error m) :
    ((_launchNestedContainer slave ctz containerId commandInfo containerInfo
        .DEFAULT acceptType apL).1 = .failure m ∧
      (_launchNestedContainer slave ctz containerId commandInfo containerInfo
        .DEFAULT acceptType apL).1.statusCode = 500) ∧
    ((waitNestedContainer slave ctz auth principal containerId acceptType).1 =
        .failure m ∧
      (waitNestedContainer slave ctz auth principal containerId
        acceptType).1.statusCode = 500) ∧
    ((killNestedContainer slave ctz auth principal containerId acceptType).1 =
        .failure m ∧
      (killNestedContainer slave ctz auth principal containerId
        acceptType).1.statusCode = 500) ∧
    (∀ (contentType : ContentType) (env : SessionStreamEnv),
      launchNestedContainerSession slave ctz auth principal containerId
          commandInfo containerInfo contentType acceptType env =
        some (.failure m,
          [.approve (launchObject exL fwL commandInfo)])) ∧
    HttpResponse.failure m ≠ .forbidden := by
  refine ⟨⟨?_, ?_⟩, ⟨?_, ?_⟩, ⟨?_, ?_⟩, ?_, by simp⟩
  · simp [_launchNestedContainer, hdeep, hlocL, herrL]
  · simp [_launchNestedContainer, hdeep, hlocL, herrL, HttpResponse.statusCode]
  · simp [waitNestedContainer, hapW, hlocW, herrW]
  · simp [waitNestedContainer, hapW, hlocW, herrW, HttpResponse.statusCode]
  · simp [killNestedContainer, hapK, hlocW, herrK]
  · simp [killNestedContainer, hapK, hlocW, herrK, HttpResponse.statusCode]
  · intro contentType env
    simp [launchNestedContainerSession, hapS, _launchNestedContainer, hdeep,
      hlocL, herrS, HttpResponse.isOk200]

/-- Witness for C4 with a configured authorizer whose approvers error on
every object. -/
theorem c4_witness :
    errorApprover (launchObject sampleExecutor sampleFramework sampleCmd) =
      .error "authorizer backend unavailable" ∧
    ((_launchNestedContainer sampleState ctzAllOk cidChild sampleCmd none
        .DEFAULT .JSON errorApprover).1 =
        .failure "authorizer backend unavailable" ∧
      (_launchNestedContainer sampleState ctzAllOk cidChild sampleCmd none
        .DEFAULT .JSON errorApprover).1.statusCode = 500) ∧
    ((waitNestedContainer sampleState ctzAllOk (some errorAuthorizer) none
        cidChild .JSON).1 = .failure "authorizer backend unavailable" ∧
      (waitNestedContainer sampleState ctzAllOk (some errorAuthorizer) none
        cidChild .JSON).1.statusCode = 500) ∧
    ((killNestedContainer sampleState ctzAllOk (some errorAuthorizer) none
        cidChild .JSON).1 = .failure "authorizer backend unavailable" ∧
      (killNestedContainer sampleState ctzAllOk (some errorAuthorizer) none
        cidChild .JSON).1.statusCode = 500) ∧
    (∀ (contentType : ContentType) (env : SessionStreamEnv),
      launchNestedContainerSession sampleState ctzAllOk
          (some errorAuthorizer) none cidChild sampleCmd none contentType
          .JSON env =
        some (.failure "authorizer backend unavailable",
          [.approve (launchObject sampleExecutor sampleFramework
            sampleCmd)])) ∧
    HttpResponse.failure "authorizer backend unavailable" ≠ .forbidden :=
  ⟨rfl,
    c4_approver_error_is_internal_failure sampleState ctzAllOk
      (some errorAuthorizer) none cidChild sampleCmd none .JSON errorApprover
      errorApprover errorApprover errorApprover sampleFramework
      sampleExecutor sampleFramework sampleExecutor
      "authorizer backend unavailable" (by decide) (by decide) (by decide)
      rfl rfl rfl rfl rfl rfl rfl⟩

/-- C8: the wait handler resolves the executor by exact match on the
ContainerID or by the ContainerID's parent matching the executor's stored
container id; when neither matches the response is 404, when resolution
succeeds but the containerizer wait yields no termination the response is
also 404, and otherwise the response is a 200 carrying the termination's
optional exit status. -/
theorem c8_wait_resolution_and_termination (slave : AgentState)
    (ctz : Containerizer) (auth : Option Authorizer)
    (principal : Option String) (containerId : ContainerID)
    (acceptType : ContentType) (ap : Approver)
    (hap : getApprover auth principal .WAIT_NESTED_CONTAINER = .ok ap) :
    ((locateExecutor slave.frameworks (waitKillMatch containerId)).isSome ↔
      ∃ fw ∈ slave.frameworks, ∃ e ∈ fw.executors,
        e.containerId = containerId.parentOrDefault ∨
          e.containerId = containerId) ∧
    ((∀ fw ∈ slave.frameworks, ∀ e ∈ fw.executors,
        e.containerId ≠ containerId.parentOrDefault ∧
          e.containerId ≠ containerId) →
      (waitNestedContainer slave ctz auth principal containerId
        acceptType).1 = .notFound "Container cannot be found") ∧
    (∀ (fw : FrameworkState) (ex : ExecutorState) (t : ContainerTermination),
      locateExecutor slave.frameworks (waitKillMatch containerId) =
        some (fw, ex) →
      ap (waitKillObject ex fw) = .allow →
      (ctz.wait containerId = .ok none →
        (waitNestedContainer slave ctz auth principal containerId
          acceptType).1 = .notFound "Container cannot be found") ∧
      (ctz.wait containerId = .ok (some t) →
        (waitNestedContainer slave ctz auth principal containerId
          acceptType).1 = .ok (some (.waitNestedContainer t.status)))) := by
  refine ⟨?_, ?_, ?_⟩
  · rw [Option.isSome_iff_ne_none, Ne, locateExecutor_eq_none_iff]
    push_neg
    simp [waitKillMatch, or_iff_not_imp_left]
  · intro hnone
    have hloc : locateExecutor slave.frameworks (waitKillMatch containerId) =
        none := by
      rw [locateExecutor_eq_none_iff]
      intro fw hfw e he
      have h := hnone fw hfw e he
      simp [waitKillMatch, h.1, h.2]
    simp [waitNestedContainer, hap, hloc]
  · intro fw ex t hloc hallow
    constructor
    · intro hwait
      simp [waitNestedContainer, hap, hloc, hallow, hwait]
    · intro hwait
      simp [waitNestedContainer, hap, hloc, hallow, hwait]

/-- Witness for C8: wait on an unrelated id is 404; wait on the child id
(resolved through the parent) and wait on the executor's own id (exact
match) both reach the containerizer, with a missing termination surfaced as
404 and a termination with exit status 0 surfaced as a 200 response. -/
theorem c8_witness :
    getApprover (none : Option Authorizer) none .WAIT_NESTED_CONTAINER =
      .ok acceptingObjectApprover ∧
    (waitNestedContainer sampleState ctzAllOk none none cidOther .JSON).1 =
      .notFound "Container cannot be found" ∧
    (waitNestedContainer sampleState ctzWaitNone none none cidChild .JSON).1 =
      .notFound "Container cannot be found" ∧
    (waitNestedContainer sampleState ctzAllOk none none cidChild .JSON).1 =
      .ok (some (.waitNestedContainer (some 0))) ∧
    (waitNestedContainer sampleState ctzAllOk none none cidParent .JSON).1 =
      .ok (some (.waitNestedContainer (some 0))) :=
  ⟨rfl,
    (c8_wait_resolution_and_termination sampleState ctzAllOk none none
      cidOther .JSON acceptingObjectApprover rfl).2.1 (by decide),
    ((c8_wait_resolution_and_termination sampleState ctzWaitNone none none
      cidChild .JSON acceptingObjectApprover rfl).2.2 sampleFramework
      sampleExecutor ⟨some 0⟩ (by decide) rfl).1 rfl,
    ((c8_wait_resolution_and_termination sampleState ctzAllOk none none
      cidChild .JSON acceptingObjectApprover rfl).2.2 sampleFramework
      sampleExecutor ⟨some 0⟩ (by decide) rfl).2 rfl,
    ((c8_wait_resolution_and_termination sampleState ctzAllOk none none
      cidParent .JSON acceptingObjectApprover rfl).2.2 sampleFramework
      sampleExecutor ⟨some 0⟩ (by decide) rfl).2 rfl⟩

/-- C7: the dispatcher answers 415 exactly for the content-type mismatches:
a streaming Content-Type with any call type other than ATTACH_CONTAINER_INPUT,
and a non-streaming Content-Type with ATTACH_CONTAINER_INPUT; only
ATTACH_CONTAINER_INPUT may arrive under a streaming Content-Type. -/
theorem c7_streaming_gate (call : AgentCall)
    (contentType acceptType : ContentType) :
    (∃ m, _api call contentType acceptType =
        .response (.unsupportedMediaType m)) ↔
      (requestStreaming contentType = true ∧
        call.type ≠ .ATTACH_CONTAINER_INPUT) ∨
      (requestStreaming contentType = false ∧
        call.type = .ATTACH_CONTAINER_INPUT) := by
  rcases call with ⟨t⟩
  cases t <;> cases contentType <;> simp [_api, requestStreaming]

/-- C9: content negotiation tests the candidates in the strict precedence
order STREAMING_PROTOBUF, STREAMING_JSON, JSON, PROTOBUF and selects the
first acceptable one; when none of the four is acceptable the api endpoint
answers 406 Not Acceptable. -/
theorem c9_accept_precedence (req : ApiRequest) (ct : ContentType)
    (hm : req.method = "POST")
    (hct : req.contentTypeHeader = .media ct) :
    chooseAcceptType req.accepts =
      (acceptCandidates.filter req.accepts).head? ∧
    ((∀ c, req.accepts c = false) →
      api false req = .response (.notAcceptable "Expecting Accept to allow ...")) := by
  constructor
  · cases hsp : req.accepts .STREAMING_PROTOBUF <;>
      cases hsj : req.accepts .STREAMING_JSON <;>
      cases hj : req.accepts .JSON <;>
      cases hp : req.accepts .PROTOBUF <;>
      simp [chooseAcceptType, acceptCandidates, hsp, hsj, hj, hp,
        List.filter]
  · intro hnone
    simp [api, hm, hct, chooseAcceptType, hnone]

/-- Witness for C9: a request accepting nothing is answered 406, and a
request accepting both STREAMING_PROTOBUF and JSON selects
STREAMING_PROTOBUF by precedence. -/
theorem c9_witness :
    nothingAcceptedReq.method = "POST" ∧
    nothingAcceptedReq.contentTypeHeader = .media .JSON ∧
    api false nothingAcceptedReq =
      .response (.notAcceptable "Expecting Accept to allow ...") ∧
    chooseAcceptType (fun c => c == .STREAMING_PROTOBUF || c == .JSON) =
      some .STREAMING_PROTOBUF :=
  ⟨rfl, rfl,
    (c9_accept_precedence nothingAcceptedReq .JSON rfl rfl).2
      (fun _ => rfl),
    (c9_accept_precedence
        ⟨"POST", .media .JSON, fun c => c == .STREAMING_PROTOBUF || c == .JSON,
          .ok ⟨.GET_HEALTH⟩, .none⟩ .JSON rfl rfl).1.trans (by decide)⟩

/-- C10: the attach-input and attach-output handlers consult no authorizer
and no principal: for any two authorizer configurations and any two
principals the outcome is identical, the trace holds no approver
consultation, and the containerizer attach is invoked. -/
theorem c10_attach_not_authorization_gated (ctz : Containerizer)
    (auth auth2 : Option Authorizer) (principal principal2 : Option String)
    (containerId : ContainerID) :
    attachContainerInput ctz auth principal containerId =
      attachContainerInput ctz auth2 principal2 containerId ∧
    attachContainerOutput ctz auth principal containerId =
      attachContainerOutput ctz auth2 principal2 containerId ∧
    (attachContainerInput ctz auth principal containerId).2.filter
      Action.isApprove = [] ∧
    (attachContainerOutput ctz auth principal containerId).2.filter
      Action.isApprove = [] ∧
    Action.ctzAttach containerId ∈
      (attachContainerInput ctz auth principal containerId).2 ∧
    Action.ctzAttach containerId ∈
      (attachContainerOutput ctz auth principal containerId).2 := by
  cases h1 : ctz.attach containerId with
  | error e =>
    simp [attachContainerInput, attachContainerOutput, h1, Action.isApprove,
      List.filter]
  | ok conn =>
    cases h2 : conn.sendResponse with
    | error e =>
      simp [attachContainerInput, attachContainerOutput, h1, h2,
        Action.isApprove, List.filter]
    | ok r =>
      cases h3 : r.isOk200 <;>
        simp [attachContainerInput, attachContainerOutput, h1, h2, h3,
          Action.isApprove, List.filter]

/-- C6 counterexample: a streaming request whose first frame fails to decode
or validate is answered with a failed future — surfaced as a 500-class
internal error — and not with 400 Bad Request, refuting the claim for the
streaming case (`api` returns `Failure(call.error())` there, unlike the
non-streaming branch which returns `BadRequest`). -/
theorem c6_counterexample :
    api false badFrameStreamingReq =
      .response (.failure "Failed to validate agent::Call: malformed record") ∧
    (HttpResponse.failure
      "Failed to validate agent::Call: malformed record").statusCode = 500 ∧
    ¬ ∃ m, api false badFrameStreamingReq = .response (.badRequest m) := by
  refine ⟨rfl, rfl, ?_⟩
  rintro ⟨m, h⟩
  rw [show api false badFrameStreamingReq =
    .response (.failure "Failed to validate agent::Call: malformed record")
    from rfl] at h
  simp at h

/-- C6 amended: a request body that fails to decode as a Call or fails
call-level structural validation is answered 400 in the non-streaming case,
and under a streaming Content-Type end-of-stream before the first frame is
400, but a decode or validation error on the first frame is returned as a
failed future surfaced as a 500-class internal error, not as 400. -/
theorem c6_decode_failure_responses (req : ApiRequest)
    (ct acceptType : ContentType) (e : String)
    (hm : req.method = "POST")
    (hct : req.contentTypeHeader = .media ct)
    (hacc : chooseAcceptType req.accepts = some acceptType) :
    (requestStreaming ct = false → req.nonStreamingBody = .error e →
      api false req = .response (.badRequest e)) ∧
    (requestStreaming ct = true → req.streamingFirstFrame = .none →
      api false req =
        .response (.badRequest "Received EOF while reading request body")) ∧
    (requestStreaming ct = true → req.streamingFirstFrame = .error e →
      api false req = .response (.failure e) ∧
        (HttpResponse.failure e).statusCode = 500) := by
  refine ⟨?_, ?_, ?_⟩ <;> intro hstream hbody <;>
    simp [api, hm, hct, hacc, hstream, hbody, HttpResponse.statusCode]

/-- Witness for the amended C6: a non-streaming bad body is 400; a streaming
bad first frame is a 500-class failure. -/
theorem c6_witness :
    badBodyReq.method = "POST" ∧
    chooseAcceptType badBodyReq.accepts = some .STREAMING_PROTOBUF ∧
    requestStreaming .JSON = false ∧
    api false badBodyReq =
      .response (.badRequest "Failed to validate agent::Call: bad body") ∧
    (api false badFrameStreamingReq =
      .response (.failure "Failed to validate agent::Call: malformed record") ∧
      (HttpResponse.failure
        "Failed to validate agent::Call: malformed record").statusCode = 500) :=
  ⟨rfl, rfl, rfl,
    (c6_decode_failure_responses badBodyReq .JSON .STREAMING_PROTOBUF
      "Failed to validate agent::Call: bad body" rfl rfl rfl).1 rfl rfl,
    (c6_decode_failure_responses badFrameStreamingReq .STREAMING_JSON
      .STREAMING_PROTOBUF "Failed to validate agent::Call: malformed record"
      rfl rfl rfl).2.2 rfl rfl⟩

/-- C1 counterexample: with launch and attach both successful, a client
disconnect fires the readerClosed destroy callback and the relay's
subsequently failing write makes the connect pump fail, firing the onFailed
destroy callback as well: the containerizer destroy is invoked twice for the
same container, refuting the never-destroy-twice part of the claim. -/
theorem c1_counterexample :
    sessionDestroyCount
      (launchNestedContainerSession sampleState ctzAllOk none none cidChild
        sampleCmd none .JSON .JSON
        ⟨some (.error "Write failed to the pipe"), true⟩) = some 2 ∧
    (2 : Nat) ≠ 1 :=
  ⟨rfl, by decide⟩

/-- C1 amended: each single terminal trigger schedules destruction exactly
once — launch failure (via the cleanup inside `_launchNestedContainer`),
attach failure (via the onFailed callback), clean output EOF alone, client
disconnect alone — but the stream-termination path (the connect pump's
onReady and onFailed callbacks) and the client-disconnect path (the
readerClosed callback) are independent registrations with no once-guard:
when both fire, the containerizer destroy is invoked twice, and exactly-once
destruction at the effect level relies on the idempotence of containerizer
destroy rather than on the handler. -/
theorem c1_session_destroy_triggers (slave : AgentState) (ctz : Containerizer)
    (auth : Option Authorizer) (principal : Option String)
    (containerId : ContainerID) (commandInfo : CommandInfo)
    (containerInfo : Option ContainerInfo)
    (contentType acceptType : ContentType) (ap : Approver)
    (fw : FrameworkState) (ex : ExecutorState) (conn : Connection)
    (hap : getApprover auth principal .LAUNCH_NESTED_CONTAINER_SESSION =
      .ok ap)
    (hdeep : containerId.parentHasParent = false)
    (hloc : locateExecutor slave.frameworks (launchMatch containerId) =
      some (fw, ex))
    (hallow : ap (launchObject ex fw commandInfo) = .allow) :
    (∀ (e : String) (env : SessionStreamEnv),
      ctz.launch containerId commandInfo containerInfo
        (effectiveUser ex commandInfo) .DEBUG = .error e →
      sessionDestroyCount (launchNestedContainerSession slave ctz auth
        principal containerId commandInfo containerInfo contentType
        acceptType env) = some 1) ∧
    (∀ (e : String) (env : SessionStreamEnv),
      ctz.launch containerId commandInfo containerInfo
        (effectiveUser ex commandInfo) .DEBUG = .ok true →
      ctz.attach containerId = .error e →
      sessionDestroyCount (launchNestedContainerSession slave ctz auth
        principal containerId commandInfo containerInfo contentType
        acceptType env) = some 1) ∧
    (ctz.launch containerId commandInfo containerInfo
        (effectiveUser ex commandInfo) .DEBUG = .ok true →
      ctz.attach containerId = .ok conn →
      conn.sendResponse = .ok (.ok (some .pipeStream)) →
      (sessionDestroyCount (launchNestedContainerSession slave ctz auth
        principal containerId commandInfo containerInfo contentType
        acceptType ⟨some (.ok ()), false⟩) = some 1) ∧
      (sessionDestroyCount (launchNestedContainerSession slave ctz auth
        principal containerId commandInfo containerInfo contentType
        acceptType ⟨none, true⟩) = some 1) ∧
      (∀ co : Except String Unit,
        sessionDestroyCount (launchNestedContainerSession slave ctz auth
          principal containerId commandInfo containerInfo contentType
          acceptType ⟨some co, true⟩) = some 2)) := by
  refine ⟨?_, ?_, ?_⟩
  · intro e env hfail
    simp [launchNestedContainerSession, hap, _launchNestedContainer, hdeep,
      hloc, hallow, hfail, sessionDestroyCount, destroyCount,
      Action.isDestroy, HttpResponse.isOk200, List.filter]
  · intro e env hlaunch hattach
    simp [launchNestedContainerSession, hap, _launchNestedContainer, hdeep,
      hloc, hallow, hlaunch, attachContainerOutput, hattach,
      sessionDestroyCount, destroyCount, Action.isDestroy,
      HttpResponse.isOk200, HttpResponse.isFailure, List.filter]
  · intro hlaunch hattach hsend
    refine ⟨?_, ?_, fun co => ?_⟩ <;>
      simp [launchNestedContainerSession, hap, _launchNestedContainer, hdeep,
        hloc, hallow, hlaunch, attachContainerOutput, hattach, hsend,
        sessionDestroyCount, destroyCount, Action.isDestroy,
        HttpResponse.isOk200, HttpResponse.isFailure, List.filter]

/-- Witness for the amended C1: launch failure, attach failure, EOF alone and
disconnect alone each destroy once; stream termination combined with client
disconnect destroys twice. -/
theorem c1_witness :
    sessionDestroyCount
      (launchNestedContainerSession sampleState ctzLaunchFails none none
        cidChild sampleCmd none .JSON .JSON ⟨none, false⟩) = some 1 ∧
    sessionDestroyCount
      (launchNestedContainerSession sampleState ctzAttachFails none none
        cidChild sampleCmd none .JSON .JSON ⟨none, false⟩) = some 1 ∧
    sessionDestroyCount
      (launchNestedContainerSession sampleState ctzAllOk none none cidChild
        sampleCmd none .JSON .JSON ⟨some (.ok ()), false⟩) = some 1 ∧
    sessionDestroyCount
      (launchNestedContainerSession sampleState ctzAllOk none none cidChild
        sampleCmd none .JSON .JSON ⟨none, true⟩) = some 1 ∧
    sessionDestroyCount
      (launchNestedContainerSession sampleState ctzAllOk none none cidChild
        sampleCmd none .JSON .JSON ⟨some (.ok ()), true⟩) = some 2 :=
  ⟨(c1_session_destroy_triggers sampleState ctzLaunchFails none none cidChild
      sampleCmd none .JSON .JSON acceptingObjectApprover sampleFramework
      sampleExecutor pipeConnection rfl (by decide) (by decide) rfl).1
      "launch failed" ⟨none, false⟩ rfl,
    (c1_session_destroy_triggers sampleState ctzAttachFails none none
      cidChild sampleCmd none .JSON .JSON acceptingObjectApprover
      sampleFramework sampleExecutor pipeConnection rfl (by decide)
      (by decide) rfl).2.1 "attach failed" ⟨none, false⟩ rfl rfl,
    ((c1_session_destroy_triggers sampleState ctzAllOk none none cidChild
      sampleCmd none .JSON .JSON acceptingObjectApprover sampleFramework
      sampleExecutor pipeConnection rfl (by decide) (by decide) rfl).2.2
      rfl rfl rfl).1,
    ((c1_session_destroy_triggers sampleState ctzAllOk none none cidChild
      sampleCmd none .JSON .JSON acceptingObjectApprover sampleFramework
      sampleExecutor pipeConnection rfl (by decide) (by decide) rfl).2.2
      rfl rfl rfl).2.1,
    ((c1_session_destroy_triggers sampleState ctzAllOk none none cidChild
      sampleCmd none .JSON .JSON acceptingObjectApprover sampleFramework
      sampleExecutor pipeConnection rfl (by decide) (by decide) rfl).2.2
      rfl rfl rfl).2.2 (.ok ())⟩

end MesosAgent
